import Mathlib

/-!
Shallow embedding of the ProjectHub task backend (src/app/backend/server.js
together with the database schema in the migration script). Tasks live in a
Postgres table; here the table is a list of rows, the connection pool is a
boolean availability flag plus an error message, and every metric submission
becomes an explicit event in the result of a handler. Durations are opaque
naturals since only the presence and labelling of observations matters.
-/

namespace ProjectHub

/-- A row of the tasks table. The schema declares
completed BOOLEAN DEFAULT false with no NOT NULL constraint, so the column
is nullable and is modelled as Option Bool (none is SQL NULL). Timestamps
are abstract naturals. -/
structure Task where
  id : Int
  title : String
  priority : String
  completed : Option Bool
  created_at : Nat
  updated_at : Nat
deriving Repr, DecidableEq

/-- The persistent store: the rows of the tasks table plus the sequence
behind the SERIAL primary key (never reused after a delete). -/
structure Store where
  tasks : List Task
  nextId : Int
deriving Repr, DecidableEq

/-- The two cached gauges tasks_total and tasks_completed. -/
structure Gauges where
  tasksTotal : Int
  tasksCompleted : Int
deriving Repr, DecidableEq

/-- One submission into the metrics registry. dbObserve is a
db_query_duration_seconds histogram observation labelled by operation;
httpObserve and httpInc are the http_request_duration_seconds observation
and the http_requests_total increment, labelled by method, route and
status code; gaugeSet is a Gauge.set call. -/
inductive MetricEvent where
  | dbObserve (operation : String) (duration : Nat)
  | httpObserve (method route : String) (statusCode : Nat) (duration : Nat)
  | httpInc (method route : String) (statusCode : Nat)
  | gaugeSet (gauge : String) (value : Int)
deriving Repr, DecidableEq

/-- JSON bodies the server can answer with, one constructor per shape that
appears in server.js. errorMsg carries the value of the error field;
apiHealthOk is the fixed liveness body with status OK and the message
Server is running; healthOk and healthBad are the readiness bodies with
status healthy/unhealthy, database connected/disconnected, the timestamp,
and (when unhealthy) the underlying error message; deletedMsg is the fixed
confirmation message Task deleted successfully. -/
inductive RespBody where
  | errorMsg (error : String)
  | taskBody (t : Task)
  | taskList (ts : List Task)
  | statsBody (total completed pending : Int)
  | apiHealthOk
  | healthOk (timestamp : Nat)
  | healthBad (error : String) (timestamp : Nat)
  | deletedMsg
deriving Repr, DecidableEq

/-- An HTTP response: status code and JSON body. -/
structure Response where
  status : Nat
  body : RespBody
deriving Repr, DecidableEq

/-- SELECT COUNT(star) FROM tasks. -/
def countTotal (s : Store) : Int := s.tasks.length

/-- SELECT COUNT(star) FROM tasks WHERE completed = true. A NULL completed
column does not satisfy completed = true in SQL. -/
def countCompleted (s : Store) : Int :=
  (s.tasks.filter (fun t => t.completed = some true)).length

/-- Whitespace the Postgres integer parser tolerates around the value. -/
def isPgSpace (c : Char) : Bool :=
  c = ' ' ∨ c = '\t' ∨ c = '\n' ∨ c = '\r'

/-- Postgres parsing of a text parameter bound to the integer id column:
optional surrounding whitespace, an optional sign, then one or more
digits; anything else raises invalid input syntax for type integer. -/
def parseId (str : String) : Option Int :=
  let cs := ((str.toList.dropWhile isPgSpace).reverse.dropWhile isPgSpace).reverse
  let signed : Int × List Char :=
    match cs with
    | '-' :: rest => (-1, rest)
    | '+' :: rest => (1, rest)
    | rest => (1, rest)
  if signed.2 ≠ [] ∧ signed.2.all Char.isDigit then
    some (signed.1 * (signed.2.foldl (fun n c => n * 10 + (c.toNat - 48)) 0 : Nat))
  else none

/-- The JavaScript truthiness test applied to the title field of the JSON
body: absent (undefined), null, and the empty string are all falsy. -/
def jsFalsyStr : Option String → Bool
  | none => true
  | some s => s = ""

/-- priority or-else medium from the POST handler: JavaScript picks medium
whenever priority is falsy, which includes both an absent field and an
empty string. -/
def priorityOrMedium : Option String → String
  | none => "medium"
  | some p => if p = "" then "medium" else p

/-- The updateTaskMetrics function: two COUNT queries and two Gauge.set
calls, with no db_query_duration observation around either query; on a
query failure the error is logged and the gauges stay as they were. The
ok flag tells whether its queries succeed (it runs detached, so its
connectivity is independent of the request that triggered it). -/
def updateTaskMetrics (ok : Bool) (s : Store) (g : Gauges) :
    Gauges × List MetricEvent :=
  if ok then
    (⟨countTotal s, countCompleted s⟩,
     [.gaugeSet "tasks_total" (countTotal s),
      .gaugeSet "tasks_completed" (countCompleted s)])
  else (g, [])

/-- The interval, in milliseconds, passed to setInterval for the periodic
updateTaskMetrics tick. -/
def refreshIntervalMs : Nat := 30000

/-- A request to one of the routes of server.js. Body fields are Option
valued: none stands for an absent (or null) JSON field. The id of PUT and
DELETE is the raw path segment, a string. -/
inductive Request where
  | getTasks
  | postTask (title priorityField : Option String)
  | putTask (idStr : String) (completedField : Option Bool)
  | deleteTask (idStr : String)
  | getStats
  | health
  | apiHealth
deriving Repr, DecidableEq

/-- The HTTP method of each route. -/
def methodOf : Request → String
  | .getTasks => "GET"
  | .postTask _ _ => "POST"
  | .putTask _ _ => "PUT"
  | .deleteTask _ => "DELETE"
  | .getStats => "GET"
  | .health => "GET"
  | .apiHealth => "GET"

/-- The route label the middleware resolves: req.route.path, the matched
Express route pattern. -/
def routeOf : Request → String
  | .getTasks => "/api/tasks"
  | .postTask _ _ => "/api/tasks"
  | .putTask _ _ => "/api/tasks/:id"
  | .deleteTask _ => "/api/tasks/:id"
  | .getStats => "/api/stats"
  | .health => "/health"
  | .apiHealth => "/api/health"

/-- What a handler produces: the response, the store and gauges after it
ran (including any detached refresh it triggered), and the metric events
it submitted. -/
structure HandlerResult where
  response : Response
  store : Store
  gauges : Gauges
  events : List MetricEvent
deriving Repr, DecidableEq

/-- The generic 500 body sent by every CRUD catch block. -/
def internalError : Response := ⟨500, .errorMsg "Internal server error"⟩

/-- The row INSERT INTO tasks (title, priority) creates: the sequence
assigns the id, completed takes its column default false, and both
timestamps default to the current time. -/
def newTask (s : Store) (title : String) (priorityField : Option String)
    (now : Nat) : Task :=
  ⟨s.nextId, title, priorityOrMedium priorityField, some false, now, now⟩

/-- UPDATE tasks SET completed = $1, updated_at = CURRENT_TIMESTAMP WHERE
id = $2 RETURNING star: returns the updated row when one matched, and the
store with that row rewritten. A none completed parameter is bound as SQL
NULL and overwrites the column. -/
def sqlUpdate (s : Store) (i : Int) (completedField : Option Bool)
    (now : Nat) : Option Task × Store :=
  match s.tasks.find? (fun t => t.id = i) with
  | none => (none, s)
  | some t =>
    let t2 : Task := { t with completed := completedField, updated_at := now }
    (some t2,
     { s with tasks := s.tasks.map (fun u => if u.id = i then t2 else u) })

/-- DELETE FROM tasks WHERE id = $1 RETURNING star: returns the removed
row when one matched, and the store without it. The id sequence is not
touched, so ids are never reused. -/
def sqlDelete (s : Store) (i : Int) : Option Task × Store :=
  match s.tasks.find? (fun t => t.id = i) with
  | none => (none, s)
  | some t =>
    (some t, { s with tasks := s.tasks.filter (fun u => ¬ u.id = i) })

/-- GET /api/tasks: SELECT star FROM tasks ORDER BY created_at DESC, one
select observation on success, the generic 500 on a query failure. -/
def handleGetTasks (dbUp : Bool) (s : Store) (g : Gauges) (dur : Nat) :
    HandlerResult :=
  if dbUp then
    ⟨⟨200, .taskList ((s.tasks.mergeSort
        (fun a b => b.created_at ≤ a.created_at)))⟩,
     s, g, [.dbObserve "select" dur]⟩
  else ⟨internalError, s, g, []⟩

/-- POST /api/tasks: a falsy title is rejected with 400 before any query;
otherwise the INSERT runs, one insert observation is recorded, the
detached updateTaskMetrics refresh is triggered, and the created row is
returned with 201. refreshOk is the connectivity seen by the detached
refresh. -/
def handlePostTask (dbUp refreshOk : Bool) (s : Store) (g : Gauges)
    (title priorityField : Option String) (now dur : Nat) : HandlerResult :=
  if jsFalsyStr title then
    ⟨⟨400, .errorMsg "Title is required"⟩, s, g, []⟩
  else if dbUp then
    let t := newTask s (title.getD "") priorityField now
    let s2 : Store := ⟨s.tasks ++ [t], s.nextId + 1⟩
    let gr := updateTaskMetrics refreshOk s2 g
    ⟨⟨201, .taskBody t⟩, s2, gr.1, .dbObserve "insert" dur :: gr.2⟩
  else ⟨internalError, s, g, []⟩

/-- PUT /api/tasks/:id: the raw id segment is bound to the integer column,
so a malformed id makes the query itself fail (500, no observation). A
well-formed id that matches no row yields 404 after the update observation
(the observe call precedes the row-count check). On a match the row is
rewritten, the detached refresh is triggered, and the updated row is
returned. -/
def handlePutTask (dbUp refreshOk : Bool) (s : Store) (g : Gauges)
    (idStr : String) (completedField : Option Bool) (now dur : Nat) :
    HandlerResult :=
  if dbUp then
    match parseId idStr with
    | none => ⟨internalError, s, g, []⟩
    | some i =>
      match sqlUpdate s i completedField now with
      | (none, _) =>
        ⟨⟨404, .errorMsg "Task not found"⟩, s, g, [.dbObserve "update" dur]⟩
      | (some t2, s2) =>
        let gr := updateTaskMetrics refreshOk s2 g
        ⟨⟨200, .taskBody t2⟩, s2, gr.1, .dbObserve "update" dur :: gr.2⟩
  else ⟨internalError, s, g, []⟩

/-- DELETE /api/tasks/:id: same id handling as PUT; on a match the row is
removed, the detached refresh is triggered, and a fixed confirmation
message is returned. -/
def handleDeleteTask (dbUp refreshOk : Bool) (s : Store) (g : Gauges)
    (idStr : String) (dur : Nat) : HandlerResult :=
  if dbUp then
    match parseId idStr with
    | none => ⟨internalError, s, g, []⟩
    | some i =>
      match sqlDelete s i with
      | (none, _) =>
        ⟨⟨404, .errorMsg "Task not found"⟩, s, g, [.dbObserve "delete" dur]⟩
      | (some _, s2) =>
        let gr := updateTaskMetrics refreshOk s2 g
        ⟨⟨200, .deletedMsg⟩, s2, gr.1, .dbObserve "delete" dur :: gr.2⟩
  else ⟨internalError, s, g, []⟩

/-- GET /api/stats: two COUNT queries read straight from storage, a single
select observation covering both, and the computed total, completed and
pending = total - completed. -/
def handleGetStats (dbUp : Bool) (s : Store) (g : Gauges) (dur : Nat) :
    HandlerResult :=
  if dbUp then
    ⟨⟨200, .statsBody (countTotal s) (countCompleted s)
        (countTotal s - countCompleted s)⟩,
     s, g, [.dbObserve "select" dur]⟩
  else ⟨internalError, s, g, []⟩

/-- GET /health: runs SELECT 1 (unobserved by any histogram); 200 healthy
when it succeeds, 503 unhealthy with the underlying error message when it
fails. -/
def handleHealth (dbUp : Bool) (errMsg : String) (s : Store) (g : Gauges)
    (now : Nat) : HandlerResult :=
  if dbUp then ⟨⟨200, .healthOk now⟩, s, g, []⟩
  else ⟨⟨503, .healthBad errMsg now⟩, s, g, []⟩

/-- GET /api/health: unconditional 200, no storage access. -/
def handleApiHealth (s : Store) (g : Gauges) : HandlerResult :=
  ⟨⟨200, .apiHealthOk⟩, s, g, []⟩

/-- Dispatch a request to its handler. dbUp is whether the pool queries
issued by the handler succeed, refreshOk whether those of a detached
refresh succeed, errMsg the message of the pool error when a query
fails. -/
def dispatch (dbUp refreshOk : Bool) (errMsg : String) (s : Store)
    (g : Gauges) (now dur : Nat) : Request → HandlerResult
  | .getTasks => handleGetTasks dbUp s g dur
  | .postTask title priorityField =>
      handlePostTask dbUp refreshOk s g title priorityField now dur
  | .putTask idStr completedField =>
      handlePutTask dbUp refreshOk s g idStr completedField now dur
  | .deleteTask idStr => handleDeleteTask dbUp refreshOk s g idStr dur
  | .getStats => handleGetStats dbUp s g dur
  | .health => handleHealth dbUp errMsg s g now
  | .apiHealth => handleApiHealth s g

/-- The two submissions of the instrumentation middleware, made inside the
finish listener once the status code is final. -/
def recordHttp (method route : String) (statusCode : Nat) (dur : Nat) :
    List MetricEvent :=
  [.httpObserve method route statusCode dur, .httpInc method route statusCode]

/-- A full request through the middleware: the handler computes and sends
the response, then the finish listener records the two HTTP metrics. The
recorderOk flag models a failure inside the recording calls; since they
run only after the response is finalized, the response fields are computed
before and independently of them. -/
def handleWithMiddleware (dbUp refreshOk recorderOk : Bool) (errMsg : String)
    (s : Store) (g : Gauges) (now dur : Nat) (r : Request) : HandlerResult :=
  let h := dispatch dbUp refreshOk errMsg s g now dur r
  let httpEvents :=
    if recorderOk then recordHttp (methodOf r) (routeOf r) h.response.status dur
    else []
  { h with events := h.events ++ httpEvents }

/-- Predicate picking the db_query_duration observations out of an event
list. -/
def isDbObserve : MetricEvent → Bool
  | .dbObserve _ _ => true
  | _ => false

/-- Predicate picking the http_request_duration observations. -/
def isHttpObserve : MetricEvent → Bool
  | .httpObserve _ _ _ _ => true
  | _ => false

/-- Predicate picking the http_requests_total increments. -/
def isHttpInc : MetricEvent → Bool
  | .httpInc _ _ _ => true
  | _ => false

/-! ## Helper lemmas -/

/-- A find? over the id column fails when no stored task carries the id. -/
theorem find?_id_none {l : List Task} {i : Int} (h : ∀ t ∈ l, t.id ≠ i) :
    l.find? (fun t => t.id = i) = none := by
  rw [List.find?_eq_none]
  intro t ht
  simp [h t ht]

/-- After a delete of id i, no row with id i remains. -/
theorem sqlDelete_find?_none (s : Store) (i : Int) :
    ((sqlDelete s i).2.tasks.find? (fun t => t.id = i)) = none := by
  unfold sqlDelete
  cases hf : s.tasks.find? (fun t => t.id = i) with
  | none => simpa using hf
  | some t =>
    simp only
    rw [List.find?_eq_none]
    intro u hu
    have hkeep := (List.mem_filter.mp hu).2
    simp only [decide_eq_true_eq] at hkeep ⊢
    exact hkeep

/-- The store left by a DELETE with a well-formed id is the one sqlDelete
produces, whether or not a row matched. -/
theorem handleDeleteTask_store (refreshOk : Bool) (s : Store) (g : Gauges)
    (idStr : String) (i : Int) (dur : Nat) (hp : parseId idStr = some i) :
    (handleDeleteTask true refreshOk s g idStr dur).store = (sqlDelete s i).2 := by
  unfold handleDeleteTask sqlDelete
  simp only [hp]
  cases hf : s.tasks.find? (fun t => t.id = i) <;> simp [hf]

/-- The refresh submits gauge sets only, never an HTTP metric. -/
theorem updateTaskMetrics_no_http (ok : Bool) (s : Store) (g : Gauges) :
    (updateTaskMetrics ok s g).2.filter isHttpObserve = []
    ∧ (updateTaskMetrics ok s g).2.filter isHttpInc = [] := by
  unfold updateTaskMetrics
  split <;> simp [isHttpObserve, isHttpInc]

/-- The refresh submits no db_query_duration observation. -/
theorem updateTaskMetrics_no_db (ok : Bool) (s : Store) (g : Gauges) :
    (updateTaskMetrics ok s g).2.filter isDbObserve = [] := by
  unfold updateTaskMetrics
  split <;> simp [isDbObserve]

/-- No handler submits an HTTP metric itself; those come only from the
middleware. -/
theorem dispatch_no_http (dbUp refreshOk : Bool) (errMsg : String) (s : Store)
    (g : Gauges) (now dur : Nat) (r : Request) :
    (dispatch dbUp refreshOk errMsg s g now dur r).events.filter isHttpObserve = []
    ∧ (dispatch dbUp refreshOk errMsg s g now dur r).events.filter isHttpInc = [] := by
  cases r <;>
    simp only [dispatch, handleGetTasks, handlePostTask, handlePutTask,
      handleDeleteTask, handleGetStats, handleHealth, handleApiHealth,
      updateTaskMetrics, internalError] <;>
    (repeat' split) <;>
    simp [isHttpObserve, isHttpInc]

/-! ## Claims -/

/-- C1: for every task-store state, a successful GET /api/stats answers 200
with total equal to the number of stored rows, completed equal to the
number of rows whose completed column is true, pending computed as total
minus completed, so that total = completed + pending; the body is computed
from the store alone, independently of the cached gauges (which appear
only as the universally quantified g). -/
theorem stats_reflects_storage (s : Store) (g : Gauges) (dur : Nat) :
    (handleGetStats true s g dur).response =
      ⟨200, .statsBody (s.tasks.length : Int)
        ((s.tasks.filter (fun t => t.completed = some true)).length : Int)
        ((s.tasks.length : Int)
          - (s.tasks.filter (fun t => t.completed = some true)).length)⟩
    ∧ ((s.tasks.length : Int)
        = ((s.tasks.filter (fun t => t.completed = some true)).length : Int)
          + ((s.tasks.length : Int)
            - (s.tasks.filter (fun t => t.completed = some true)).length))
    ∧ (handleGetStats true s g dur).store = s := by
  refine ⟨rfl, by ring, rfl⟩

/-- C2: a POST /api/tasks whose title is absent, null or empty answers 400
with the error message Title is required, leaves the store and gauges
untouched, and records no metric event (the handler returns before any
query). -/
theorem post_falsy_title_rejected (dbUp refreshOk : Bool) (s : Store)
    (g : Gauges) (title priorityField : Option String) (now dur : Nat)
    (h : jsFalsyStr title = true) :
    handlePostTask dbUp refreshOk s g title priorityField now dur =
      ⟨⟨400, .errorMsg "Title is required"⟩, s, g, []⟩ := by
  unfold handlePostTask
  simp [h]

/-- Witness for post_falsy_title_rejected at a missing title. -/
theorem post_falsy_title_rejected_witness :
    handlePostTask true true ⟨[], 1⟩ ⟨0, 0⟩ none (some "high") 3 1 =
      ⟨⟨400, .errorMsg "Title is required"⟩, ⟨[], 1⟩, ⟨0, 0⟩, []⟩ :=
  post_falsy_title_rejected true true ⟨[], 1⟩ ⟨0, 0⟩ none (some "high") 3 1 rfl

/-- C5: GET /api/health answers 200 with status OK and the message Server
is running in every state of the pool; GET /health answers 503 with status
unhealthy, database disconnected and the underlying error message exactly
when the round-trip query fails, and 200 with status healthy, database
connected and a timestamp exactly when it succeeds; neither touches the
store. -/
theorem health_probe_contract (dbUp : Bool) (errMsg : String) (s : Store)
    (g : Gauges) (now : Nat) :
    handleApiHealth s g = ⟨⟨200, .apiHealthOk⟩, s, g, []⟩
    ∧ handleHealth true errMsg s g now = ⟨⟨200, .healthOk now⟩, s, g, []⟩
    ∧ handleHealth false errMsg s g now
        = ⟨⟨503, .healthBad errMsg now⟩, s, g, []⟩
    ∧ ((handleHealth dbUp errMsg s g now).response.status = 503
        ↔ dbUp = false) := by
  refine ⟨rfl, rfl, rfl, ?_⟩
  cases dbUp <;> simp [handleHealth]

/-- C9: a PUT or DELETE whose raw id segment is not a well-formed integer
makes the storage query itself fail, so the handler answers 500 with the
generic Internal server error body, not 404, and the store is unchanged
(no observation is recorded either, since the query threw before the
observe call). -/
theorem malformed_id_is_500 (refreshOk : Bool) (s : Store) (g : Gauges)
    (idStr : String) (completedField : Option Bool) (now dur : Nat)
    (h : parseId idStr = none) :
    handlePutTask true refreshOk s g idStr completedField now dur
        = ⟨⟨500, .errorMsg "Internal server error"⟩, s, g, []⟩
    ∧ handleDeleteTask true refreshOk s g idStr dur
        = ⟨⟨500, .errorMsg "Internal server error"⟩, s, g, []⟩ := by
  unfold handlePutTask handleDeleteTask
  simp [h, internalError]

/-- Witness for malformed_id_is_500 at the non-numeric id abc. -/
theorem malformed_id_is_500_witness :
    handlePutTask true true ⟨[], 1⟩ ⟨0, 0⟩ "abc" (some true) 2 1
        = ⟨⟨500, .errorMsg "Internal server error"⟩, ⟨[], 1⟩, ⟨0, 0⟩, []⟩
    ∧ handleDeleteTask true true ⟨[], 1⟩ ⟨0, 0⟩ "abc" 1
        = ⟨⟨500, .errorMsg "Internal server error"⟩, ⟨[], 1⟩, ⟨0, 0⟩, []⟩ :=
  malformed_id_is_500 true ⟨[], 1⟩ ⟨0, 0⟩ "abc" (some true) 2 1 (by decide)

/-- C3: a PUT or DELETE whose well-formed integer id matches no stored
task answers 404 with the error message Task not found and leaves store
and gauges untouched (the update/delete observation is still recorded,
since the query itself succeeded with zero rows); moreover a second
DELETE of the same id after any first DELETE of that id answers 404 as
well, never another error, since the first one removed every row with
that id. -/
theorem missing_id_is_404 (refreshOk refreshOk2 : Bool) (s s3 : Store)
    (g g2 g3 : Gauges) (idStr : String) (i : Int)
    (completedField : Option Bool) (now dur : Nat)
    (hp : parseId idStr = some i) (hm : ∀ t ∈ s.tasks, t.id ≠ i) :
    handlePutTask true refreshOk s g idStr completedField now dur
        = ⟨⟨404, .errorMsg "Task not found"⟩, s, g, [.dbObserve "update" dur]⟩
    ∧ handleDeleteTask true refreshOk s g idStr dur
        = ⟨⟨404, .errorMsg "Task not found"⟩, s, g, [.dbObserve "delete" dur]⟩
    ∧ handleDeleteTask true refreshOk2
        ((handleDeleteTask true refreshOk s3 g3 idStr dur).store) g2 idStr dur
        = ⟨⟨404, .errorMsg "Task not found"⟩,
           (handleDeleteTask true refreshOk s3 g3 idStr dur).store, g2,
           [.dbObserve "delete" dur]⟩ := by
  have hfind : s.tasks.find? (fun t => t.id = i) = none := find?_id_none hm
  refine ⟨?_, ?_, ?_⟩
  · unfold handlePutTask sqlUpdate
    simp [hp, hfind]
  · unfold handleDeleteTask sqlDelete
    simp [hp, hfind]
  · have hs1 := handleDeleteTask_store refreshOk s3 g3 idStr i dur hp
    have hfind2 := sqlDelete_find?_none s3 i
    rw [hs1]
    generalize (sqlDelete s3 i).2 = s4 at hfind2 ⊢
    unfold handleDeleteTask sqlDelete
    simp [hp, hfind2]

/-- Witness for missing_id_is_404: id 5 is absent from a one-task store,
and the second-delete part is exercised on a store that does contain
id 5. -/
theorem missing_id_is_404_witness :
    handlePutTask true true ⟨[⟨1, "a", "medium", some false, 0, 0⟩], 2⟩ ⟨0, 0⟩
        "5" (some true) 4 1
      = ⟨⟨404, .errorMsg "Task not found"⟩,
         ⟨[⟨1, "a", "medium", some false, 0, 0⟩], 2⟩, ⟨0, 0⟩,
         [.dbObserve "update" 1]⟩
    ∧ handleDeleteTask true true ⟨[⟨1, "a", "medium", some false, 0, 0⟩], 2⟩
        ⟨0, 0⟩ "5" 1
      = ⟨⟨404, .errorMsg "Task not found"⟩,
         ⟨[⟨1, "a", "medium", some false, 0, 0⟩], 2⟩, ⟨0, 0⟩,
         [.dbObserve "delete" 1]⟩
    ∧ handleDeleteTask true false
        ((handleDeleteTask true true ⟨[⟨5, "b", "low", some true, 0, 0⟩], 6⟩
            ⟨9, 9⟩ "5" 1).store) ⟨7, 7⟩ "5" 1
      = ⟨⟨404, .errorMsg "Task not found"⟩,
         (handleDeleteTask true true ⟨[⟨5, "b", "low", some true, 0, 0⟩], 6⟩
            ⟨9, 9⟩ "5" 1).store, ⟨7, 7⟩,
         [.dbObserve "delete" 1]⟩ :=
  missing_id_is_404 true false ⟨[⟨1, "a", "medium", some false, 0, 0⟩], 2⟩
    ⟨[⟨5, "b", "low", some true, 0, 0⟩], 6⟩ ⟨0, 0⟩ ⟨7, 7⟩ ⟨9, 9⟩ "5" 5
    (some true) 4 1 (by decide) (by decide)

/-- C4 counterexample: a POST that supplies the empty string as priority
does not store that supplied value; the created row carries priority
medium instead, because the JavaScript or-else treats the empty string as
falsy. -/
theorem post_empty_priority_not_stored :
    (handlePostTask true true ⟨[], 1⟩ ⟨0, 0⟩ (some "t") (some "") 0 0).response
      = ⟨201, .taskBody ⟨1, "t", "medium", some false, 0, 0⟩⟩
    ∧ ¬ ((handlePostTask true true ⟨[], 1⟩ ⟨0, 0⟩ (some "t") (some "") 0 0).store.tasks
          = [⟨1, "t", "", some false, 0, 0⟩]) := by decide

/-- C4 amended: a POST with a non-empty title and no priority field
answers 201 and stores a row with that title, priority medium and
completed false; a supplied non-empty priority is stored exactly as given
with no validation, while a supplied empty-string priority is treated as
missing and likewise defaults to medium. -/
theorem post_creates_task (refreshOk : Bool) (s : Store) (g : Gauges)
    (tt p : String) (now dur : Nat) (ht : ¬ tt = "") (hpne : ¬ p = "") :
    (handlePostTask true refreshOk s g (some tt) none now dur).response
        = ⟨201, .taskBody ⟨s.nextId, tt, "medium", some false, now, now⟩⟩
    ∧ (handlePostTask true refreshOk s g (some tt) none now dur).store
        = ⟨s.tasks ++ [⟨s.nextId, tt, "medium", some false, now, now⟩],
           s.nextId + 1⟩
    ∧ (handlePostTask true refreshOk s g (some tt) (some p) now dur).response
        = ⟨201, .taskBody ⟨s.nextId, tt, p, some false, now, now⟩⟩ := by
  unfold handlePostTask newTask priorityOrMedium
  simp [jsFalsyStr, ht, hpne]

/-- Witness for post_creates_task at the title Write spec and the
unvalidated priority urgent. -/
theorem post_creates_task_witness :
    (handlePostTask true true ⟨[], 1⟩ ⟨0, 0⟩ (some "Write spec") none 2 1).response
        = ⟨201, .taskBody ⟨1, "Write spec", "medium", some false, 2, 2⟩⟩
    ∧ (handlePostTask true true ⟨[], 1⟩ ⟨0, 0⟩ (some "Write spec") none 2 1).store
        = ⟨[⟨1, "Write spec", "medium", some false, 2, 2⟩], 2⟩
    ∧ (handlePostTask true true ⟨[], 1⟩ ⟨0, 0⟩ (some "Write spec")
          (some "urgent") 2 1).response
        = ⟨201, .taskBody ⟨1, "Write spec", "urgent", some false, 2, 2⟩⟩ :=
  post_creates_task true ⟨[], 1⟩ ⟨0, 0⟩ "Write spec" "urgent" 2 1
    (by decide) (by decide)

/-- C6: for every request, the response (and resulting store) is the same
whether or not the recording calls in the finish listener succeed, and
when they do succeed the full event stream contains exactly one
http_request_duration observation and exactly one http_requests_total
increment, both labelled by the method, the matched route pattern and the
finalized status code. -/
theorem middleware_records_once (dbUp refreshOk : Bool) (errMsg : String)
    (s : Store) (g : Gauges) (now dur : Nat) (r : Request) :
    (handleWithMiddleware dbUp refreshOk false errMsg s g now dur r).response
      = (handleWithMiddleware dbUp refreshOk true errMsg s g now dur r).response
    ∧ (handleWithMiddleware dbUp refreshOk false errMsg s g now dur r).store
      = (handleWithMiddleware dbUp refreshOk true errMsg s g now dur r).store
    ∧ (handleWithMiddleware dbUp refreshOk true errMsg s g now dur r).events.filter
        isHttpObserve
      = [.httpObserve (methodOf r) (routeOf r)
          (handleWithMiddleware dbUp refreshOk true errMsg s g now dur r).response.status
          dur]
    ∧ (handleWithMiddleware dbUp refreshOk true errMsg s g now dur r).events.filter
        isHttpInc
      = [.httpInc (methodOf r) (routeOf r)
          (handleWithMiddleware dbUp refreshOk true errMsg s g now dur r).response.status] := by
  obtain ⟨h1, h2⟩ := dispatch_no_http dbUp refreshOk errMsg s g now dur r
  unfold handleWithMiddleware recordHttp
  simp [List.filter_append, h1, h2, isHttpObserve, isHttpInc]

/-- C7 counterexample: the gauge refresh runs its two COUNT queries
successfully (it recomputes and sets both gauges), yet submits no
db_query_duration observation for either query, so not every storage call
is wrapped with a duration measurement. -/
theorem gauge_refresh_counts_unobserved :
    updateTaskMetrics true ⟨[⟨1, "a", "medium", some true, 0, 0⟩], 2⟩ ⟨0, 0⟩
      = (⟨1, 1⟩, [.gaugeSet "tasks_total" 1, .gaugeSet "tasks_completed" 1])
    ∧ ((updateTaskMetrics true ⟨[⟨1, "a", "medium", some true, 0, 0⟩], 2⟩
          ⟨0, 0⟩).2.filter isDbObserve) = [] := by decide

/-- C7 amended: each CRUD and stats handler wraps its storage work in
exactly one db_query_duration observation labelled by its operation kind
(select for the list and for stats, where a single select observation
covers both COUNT queries, insert, update, delete), while the COUNT
queries of the gauge refresh and the health-probe round-trip query record
no observation at all. -/
theorem db_observation_per_handler (dbUp refreshOk : Bool) (s : Store)
    (g : Gauges) (title priorityField : Option String) (idStr : String)
    (i : Int) (completedField : Option Bool) (errMsg : String) (now dur : Nat)
    (ht : jsFalsyStr title = false) (hp : parseId idStr = some i) :
    (handleGetTasks true s g dur).events.filter isDbObserve
        = [.dbObserve "select" dur]
    ∧ (handlePostTask true refreshOk s g title priorityField now dur).events.filter
        isDbObserve = [.dbObserve "insert" dur]
    ∧ (handlePutTask true refreshOk s g idStr completedField now dur).events.filter
        isDbObserve = [.dbObserve "update" dur]
    ∧ (handleDeleteTask true refreshOk s g idStr dur).events.filter isDbObserve
        = [.dbObserve "delete" dur]
    ∧ (handleGetStats true s g dur).events.filter isDbObserve
        = [.dbObserve "select" dur]
    ∧ (handleHealth dbUp errMsg s g now).events.filter isDbObserve = []
    ∧ (updateTaskMetrics refreshOk s g).2.filter isDbObserve = [] := by
  refine ⟨?_, ?_, ?_, ?_, ?_, ?_, updateTaskMetrics_no_db refreshOk s g⟩
  · simp [handleGetTasks, isDbObserve]
  · unfold handlePostTask
    simp [ht, updateTaskMetrics_no_db, isDbObserve]
  · unfold handlePutTask
    simp only [hp]
    cases hu : sqlUpdate s i completedField now with
    | mk found s2 =>
      cases found <;> simp [updateTaskMetrics_no_db, isDbObserve]
  · unfold handleDeleteTask
    simp only [hp]
    cases hd : sqlDelete s i with
    | mk found s2 =>
      cases found <;> simp [updateTaskMetrics_no_db, isDbObserve]
  · simp [handleGetStats, isDbObserve]
  · unfold handleHealth
    split <;> simp

/-- Witness for db_observation_per_handler on a one-task store with a
present title and the well-formed id 1. -/
theorem db_observation_per_handler_witness :
    (handleGetTasks true ⟨[⟨1, "a", "medium", some false, 0, 0⟩], 2⟩ ⟨0, 0⟩
        1).events.filter isDbObserve = [.dbObserve "select" 1]
    ∧ (handlePostTask true true ⟨[⟨1, "a", "medium", some false, 0, 0⟩], 2⟩
        ⟨0, 0⟩ (some "b") none 3 1).events.filter isDbObserve
        = [.dbObserve "insert" 1]
    ∧ (handlePutTask true true ⟨[⟨1, "a", "medium", some false, 0, 0⟩], 2⟩
        ⟨0, 0⟩ "1" (some true) 3 1).events.filter isDbObserve
        = [.dbObserve "update" 1]
    ∧ (handleDeleteTask true true ⟨[⟨1, "a", "medium", some false, 0, 0⟩], 2⟩
        ⟨0, 0⟩ "1" 1).events.filter isDbObserve = [.dbObserve "delete" 1]
    ∧ (handleGetStats true ⟨[⟨1, "a", "medium", some false, 0, 0⟩], 2⟩ ⟨0, 0⟩
        1).events.filter isDbObserve = [.dbObserve "select" 1]
    ∧ (handleHealth false "down" ⟨[⟨1, "a", "medium", some false, 0, 0⟩], 2⟩
        ⟨0, 0⟩ 3).events.filter isDbObserve = []
    ∧ (updateTaskMetrics true ⟨[⟨1, "a", "medium", some false, 0, 0⟩], 2⟩
        ⟨0, 0⟩).2.filter isDbObserve = [] :=
  db_observation_per_handler false true
    ⟨[⟨1, "a", "medium", some false, 0, 0⟩], 2⟩ ⟨0, 0⟩ (some "b") none "1" 1
    (some true) "down" 3 1 (by decide) (by decide)

/-- C10: a PUT on an existing id whose body lacks the completed field
still succeeds with 200; the absent value is bound as SQL NULL, so the
stored row keeps its title, priority and created_at but its completed
column becomes NULL and its updated_at is refreshed to the current
time. -/
theorem put_absent_completed_stores_null (refreshOk : Bool) (s : Store)
    (g : Gauges) (idStr : String) (i : Int) (t0 : Task) (now dur : Nat)
    (hp : parseId idStr = some i)
    (hf : s.tasks.find? (fun t => t.id = i) = some t0) :
    (handlePutTask true refreshOk s g idStr none now dur).response
      = ⟨200, .taskBody { t0 with completed := none, updated_at := now }⟩
    ∧ (handlePutTask true refreshOk s g idStr none now dur).store.tasks
      = s.tasks.map (fun u => if u.id = i
          then { t0 with completed := none, updated_at := now } else u) := by
  unfold handlePutTask sqlUpdate
  simp [hp, hf]

/-- Witness for put_absent_completed_stores_null: a row that was
completed true is overwritten to NULL with a fresh updated_at. -/
theorem put_absent_completed_stores_null_witness :
    (handlePutTask true true ⟨[⟨1, "a", "high", some true, 0, 0⟩], 2⟩ ⟨0, 0⟩
        "1" none 9 1).response
      = ⟨200, .taskBody ⟨1, "a", "high", none, 0, 9⟩⟩
    ∧ (handlePutTask true true ⟨[⟨1, "a", "high", some true, 0, 0⟩], 2⟩ ⟨0, 0⟩
        "1" none 9 1).store.tasks
      = [⟨1, "a", "high", none, 0, 9⟩] := by
  have h := put_absent_completed_stores_null true
    ⟨[⟨1, "a", "high", some true, 0, 0⟩], 2⟩ ⟨0, 0⟩ "1" 1
    ⟨1, "a", "high", some true, 0, 0⟩ 9 1 (by decide) (by decide)
  exact ⟨h.1, by rw [h.2]; decide⟩

/-- C8: the scheduled tick passes 30000 milliseconds to setInterval; every
successful create, update or delete leaves the gauges exactly as the same
updateTaskMetrics refresh computes them from the post-mutation store
(whatever connectivity that detached refresh sees), the response and the
store being independent of the refresh outcome since it is not awaited;
and a failed refresh sets nothing, leaving the gauges unchanged until the
next trigger. -/
theorem aggregator_refresh_contract (refreshOk : Bool) (s s2 s3 : Store)
    (g : Gauges) (tt : String) (idStr idStr2 : String) (i i2 : Int)
    (completedField : Option Bool) (t0 t1 : Task) (now dur : Nat)
    (ht : ¬ tt = "")
    (hp : parseId idStr = some i)
    (hf : s2.tasks.find? (fun t => t.id = i) = some t0)
    (hp2 : parseId idStr2 = some i2)
    (hf2 : s3.tasks.find? (fun t => t.id = i2) = some t1) :
    refreshIntervalMs = 30000
    ∧ updateTaskMetrics false s g = (g, [])
    ∧ (handlePostTask true refreshOk s g (some tt) none now dur).gauges
        = (updateTaskMetrics refreshOk
            (handlePostTask true refreshOk s g (some tt) none now dur).store g).1
    ∧ (handlePostTask true false s g (some tt) none now dur).response
        = (handlePostTask true true s g (some tt) none now dur).response
    ∧ (handlePostTask true false s g (some tt) none now dur).store
        = (handlePostTask true true s g (some tt) none now dur).store
    ∧ (handlePutTask true refreshOk s2 g idStr completedField now dur).gauges
        = (updateTaskMetrics refreshOk
            (handlePutTask true refreshOk s2 g idStr completedField now dur).store g).1
    ∧ (handlePutTask true false s2 g idStr completedField now dur).response
        = (handlePutTask true true s2 g idStr completedField now dur).response
    ∧ (handlePutTask true false s2 g idStr completedField now dur).store
        = (handlePutTask true true s2 g idStr completedField now dur).store
    ∧ (handleDeleteTask true refreshOk s3 g idStr2 dur).gauges
        = (updateTaskMetrics refreshOk
            (handleDeleteTask true refreshOk s3 g idStr2 dur).store g).1
    ∧ (handleDeleteTask true false s3 g idStr2 dur).response
        = (handleDeleteTask true true s3 g idStr2 dur).response
    ∧ (handleDeleteTask true false s3 g idStr2 dur).store
        = (handleDeleteTask true true s3 g idStr2 dur).store := by
  refine ⟨rfl, rfl, ?_, ?_, ?_, ?_, ?_, ?_, ?_, ?_, ?_⟩ <;>
    simp [handlePostTask, handlePutTask, handleDeleteTask, jsFalsyStr, ht,
      hp, hp2, sqlUpdate, sqlDelete, hf, hf2]

/-- Witness for aggregator_refresh_contract on one-task stores with the
title b and ids 1 and 5. -/
theorem aggregator_refresh_contract_witness :
    refreshIntervalMs = 30000
    ∧ updateTaskMetrics false ⟨[], 1⟩ ⟨0, 0⟩ = (⟨0, 0⟩, [])
    ∧ (handlePostTask true true ⟨[], 1⟩ ⟨0, 0⟩ (some "b") none 3 1).gauges
        = (updateTaskMetrics true
            (handlePostTask true true ⟨[], 1⟩ ⟨0, 0⟩ (some "b") none 3 1).store ⟨0, 0⟩).1
    ∧ (handlePostTask true false ⟨[], 1⟩ ⟨0, 0⟩ (some "b") none 3 1).response
        = (handlePostTask true true ⟨[], 1⟩ ⟨0, 0⟩ (some "b") none 3 1).response
    ∧ (handlePostTask true false ⟨[], 1⟩ ⟨0, 0⟩ (some "b") none 3 1).store
        = (handlePostTask true true ⟨[], 1⟩ ⟨0, 0⟩ (some "b") none 3 1).store
    ∧ (handlePutTask true true ⟨[⟨1, "a", "medium", some false, 0, 0⟩], 2⟩
          ⟨0, 0⟩ "1" (some true) 3 1).gauges
        = (updateTaskMetrics true
            (handlePutTask true true ⟨[⟨1, "a", "medium", some false, 0, 0⟩], 2⟩
              ⟨0, 0⟩ "1" (some true) 3 1).store ⟨0, 0⟩).1
    ∧ (handlePutTask true false ⟨[⟨1, "a", "medium", some false, 0, 0⟩], 2⟩
          ⟨0, 0⟩ "1" (some true) 3 1).response
        = (handlePutTask true true ⟨[⟨1, "a", "medium", some false, 0, 0⟩], 2⟩
            ⟨0, 0⟩ "1" (some true) 3 1).response
    ∧ (handlePutTask true false ⟨[⟨1, "a", "medium", some false, 0, 0⟩], 2⟩
          ⟨0, 0⟩ "1" (some true) 3 1).store
        = (handlePutTask true true ⟨[⟨1, "a", "medium", some false, 0, 0⟩], 2⟩
            ⟨0, 0⟩ "1" (some true) 3 1).store
    ∧ (handleDeleteTask true true ⟨[⟨5, "c", "low", some true, 0, 0⟩], 6⟩
          ⟨0, 0⟩ "5" 1).gauges
        = (updateTaskMetrics true
            (handleDeleteTask true true ⟨[⟨5, "c", "low", some true, 0, 0⟩], 6⟩
              ⟨0, 0⟩ "5" 1).store ⟨0, 0⟩).1
    ∧ (handleDeleteTask true false ⟨[⟨5, "c", "low", some true, 0, 0⟩], 6⟩
          ⟨0, 0⟩ "5" 1).response
        = (handleDeleteTask true true ⟨[⟨5, "c", "low", some true, 0, 0⟩], 6⟩
            ⟨0, 0⟩ "5" 1).response
    ∧ (handleDeleteTask true false ⟨[⟨5, "c", "low", some true, 0, 0⟩], 6⟩
          ⟨0, 0⟩ "5" 1).store
        = (handleDeleteTask true true ⟨[⟨5, "c", "low", some true, 0, 0⟩], 6⟩
            ⟨0, 0⟩ "5" 1).store :=
  aggregator_refresh_contract true ⟨[], 1⟩
    ⟨[⟨1, "a", "medium", some false, 0, 0⟩], 2⟩
    ⟨[⟨5, "c", "low", some true, 0, 0⟩], 6⟩ ⟨0, 0⟩ "b" "1" "5" 1 5
    (some true) ⟨1, "a", "medium", some false, 0, 0⟩
    ⟨5, "c", "low", some true, 0, 0⟩ 3 1
    (by decide) (by decide) (by decide) (by decide) (by decide)

end ProjectHub
